import Mathlib

/-!
Verification of the StockAI dashboard core: a shallow embedding, in Lean 4,
of the valuation classifier (stock_tools.py), the watchlist store, symbol
search and live table builder (app_graph.py), and the four-stage analysis
pipeline (graph_agent.py).  External collaborators (the market-data provider
and the narrative-generation service) are modelled as oracle parameters:
each definition takes the outcome of the external call as an explicit
argument, mirroring exactly how the Python code consumes that outcome.
Numbers that Python holds as floats are modelled as rationals; Python
truthiness of a numeric or string value is modelled explicitly wherever the
code relies on it.
-/

/-! ## Python string helpers

`String.trim` and `String.toUpper` from the Lean library are implemented
with well-founded recursion, which the kernel cannot evaluate; these
structurally recursive equivalents model Python `str.strip()` and
`str.upper()` over the character list of the string. -/

/-- Model of Python `str.upper()`: uppercase every character. -/
def pyUpper (s : String) : String := String.mk (s.data.map Char.toUpper)

/-- Model of Python `str.strip()`: drop leading and trailing whitespace. -/
def pyStrip (s : String) : String :=
  String.mk (((s.data.dropWhile Char.isWhitespace).reverse.dropWhile
    Char.isWhitespace).reverse)

/-! ## Valuation classifier (stock_tools.py, get_valuation) -/

/-- Python truthiness of an optional numeric value: `None` and `0` are falsy,
every other number is truthy.  Models the test written `if not pe` in
`get_valuation`. -/
def truthyQ : Option ℚ → Bool
  | none => false
  | some x => x != 0

/-- Embedding of `get_valuation` from stock_tools.py, restricted to its pure
classification part.  The provider lookup `get_fundamentals` is external; its
result fields `peRatio` and `pbRatio` are the two arguments (absent field =
`none`).  The returned string is the `valuation` entry of the Python dict:
`if not pe or not pb` yields the `Data not available` verdict, then the
threshold cascade applies.  The threshold 1.5 is written `mkRat 3 2`. -/
def get_valuation (pe pb : Option ℚ) : String :=
  if !truthyQ pe || !truthyQ pb then "Data not available"
  else
    let p := pe.getD 0
    let b := pb.getD 0
    if p < 15 ∧ b < mkRat 3 2 then "Undervalued"
    else if p < 25 ∧ b < 3 then "Fairly valued"
    else "Overvalued"

/-! ## Watchlist store (app_graph.py, load_watchlist / save_watchlist) -/

/-- A JSON value, as produced by `json.load`.  The watchlist file nominally
holds an array of strings, but `load_watchlist` only checks
`isinstance(data, list)`, so the model keeps arbitrary JSON documents. -/
inductive Json where
  | str (s : String)
  | num (n : Int)
  | bool (b : Bool)
  | null
  | arr (xs : List Json)
  | obj (kvs : List (String × Json))

/-- The observable state of the durable watchlist file: absent, present but
raising on open or parse (corrupt), or parsed to a JSON document. -/
inductive FileState where
  | missing
  | unreadable
  | parsed (j : Json)

/-- Embedding of `load_watchlist` from app_graph.py: if the file exists and
parses to a JSON list, return that list; in every other case (missing file,
exception while reading or parsing, parsed value not a list) return `[]`. -/
def load_watchlist : FileState → List Json
  | .missing => []
  | .unreadable => []
  | .parsed j =>
    match j with
    | .arr xs => xs
    | _ => []

/-- Outcome of `save_watchlist`: the write either succeeds or the exception
is caught and surfaced as a warning (`st.error`).  The function never raises
to its caller and never touches the in-memory list. -/
inductive SaveOutcome where
  | ok
  | warned
deriving DecidableEq, Repr

/-- Embedding of `save_watchlist` from app_graph.py, parameterised by whether
the underlying file write succeeds (`io = true`) or raises.  On failure the
exception is caught and reported as a warning; nothing is rolled back. -/
def save_watchlist (io : Bool) : SaveOutcome :=
  if io then .ok else .warned

/-- A filtered search match as assembled by `search_symbol`: symbol and
display name are guaranteed present, the exchange may be absent. -/
structure SymbolMatch where
  symbol : String
  name : String
  exchange : Option String
deriving DecidableEq, Repr

/-- Result of one watchlist-mutating handler run: the in-memory watchlist
after the handler, and, when `save_watchlist` was invoked, the list it was
asked to persist together with its outcome (`none` = save never called). -/
structure HandlerResult where
  watchlist : List String
  saveCall : Option (List String × SaveOutcome)
deriving DecidableEq, Repr

/-- Embedding of the Search and Add button handler of app_graph.py.  The
external `search_symbol` call is abstracted: `ms` is the list it returned
for the stripped input.  An all-whitespace input is rejected before
searching; an empty result reports no matches; a unique match is appended
unless the exact string is already a member, and the post-append list is
persisted immediately; several matches defer to the confirm handler. -/
def searchAddHandler (input : String) (ms : List SymbolMatch)
    (wl : List String) (io : Bool) : HandlerResult :=
  if pyStrip input = "" then ⟨wl, none⟩
  else
    match ms with
    | [] => ⟨wl, none⟩
    | [m] =>
      if m.symbol ∈ wl then ⟨wl, none⟩
      else
        let wl2 := wl ++ [m.symbol]
        ⟨wl2, some (wl2, save_watchlist io)⟩
    | _ => ⟨wl, none⟩

/-- Embedding of the Confirm Add button handler of app_graph.py: `sym` is the
symbol parsed back out of the selected dropdown entry.  Same exact-membership
check, append and immediate save as the unique-match path. -/
def confirmAddHandler (sym : String) (wl : List String) (io : Bool) :
    HandlerResult :=
  if sym ∈ wl then ⟨wl, none⟩
  else
    let wl2 := wl ++ [sym]
    ⟨wl2, some (wl2, save_watchlist io)⟩

/-! ## Symbol search (app_graph.py, search_symbol) -/

/-- Python truthiness of an optional string: `None` and the empty string
are falsy. -/
def truthyS : Option String → Bool
  | none => false
  | some s => s != ""

/-- Python `a or b` on optional strings: `a` when truthy, else `b` as-is. -/
def pyOr (a b : Option String) : Option String :=
  if truthyS a then a else b

/-- One raw entry of the provider search response (`results["quotes"]`):
every field may be missing. -/
structure RawQuote where
  symbol : Option String
  shortname : Option String
  longname : Option String
  exchange : Option String
  exchangeName : Option String
deriving DecidableEq, Repr

/-- The body of the loop in `search_symbol`: `shortname or longname` and
`exchange or exchangeName` via Python `or`, then the quote is kept only when
both the symbol and the display name are truthy. -/
def quoteToMatch (q : RawQuote) : Option SymbolMatch :=
  let sn := pyOr q.shortname q.longname
  let ex := pyOr q.exchange q.exchangeName
  if truthyS q.symbol && truthyS sn then
    some ⟨q.symbol.getD "", sn.getD "", ex⟩
  else none

/-- Embedding of `search_symbol` from app_graph.py.  The provider call is the
argument: `Except.error` models the `search(query)` call raising, in which
case the handler returns `[]`; otherwise the quotes are filtered to those
carrying both a symbol and a display name. -/
def search_symbol (resp : Except Unit (List RawQuote)) : List SymbolMatch :=
  match resp with
  | .error _ => []
  | .ok quotes => quotes.filterMap quoteToMatch

/-! ## Live table builder (app_graph.py, fetch_stock_row) -/

/-- Floor of a rational, computed with kernel-reducible integer floor
division (the denominator of a `Rat` is positive). -/
def qfloor (x : ℚ) : Int := Int.fdiv x.num x.den

/-- Model of Python `round` to the nearest integer, and of the rounding that
`f-string` formatting with two decimals performs after scaling by 100.
Ties round up rather than to even; no property proved here distinguishes
the two. -/
def qround (x : ℚ) : Int := qfloor (x + mkRat 1 2)

/-- Decimal rendering of a natural number, two digits wide. -/
def twoDigits (d : Nat) : String :=
  (if d < 10 then "0" else "") ++ toString d

/-- Model of Python `f"{x:.2f}"`: render to two decimal places. -/
def fmt2 (x : ℚ) : String :=
  let n : Int := qround (x * 100)
  let m : Nat := n.natAbs
  (if n < 0 then "-" else "") ++ toString (m / 100) ++ "." ++ twoDigits (m % 100)

/-- Model of Python `f"{x:+.2f}"`: as `fmt2` but with an explicit `+` sign
on nonnegative values. -/
def fmt2sign (x : ℚ) : String :=
  if qround (x * 100) < 0 then fmt2 x else "+" ++ fmt2 x

deriving instance DecidableEq for Except

/-- Outcome of reading `ticker.fast_info` inside its own try/except:
the read may raise (`error`), yield a falsy object (`ok none`), or yield the
three optional fields `last_price`, `last_close`, `previous_close`. -/
structure TickerData where
  fastInfo : Except Unit (Option (Option ℚ × Option ℚ × Option ℚ))
  hist5d : Except Unit (List ℚ)
  info : Except Unit (Option ℚ × Option ℚ)
deriving DecidableEq, Repr

/-- The provider behaviour observed by `fetch_stock_row` for one symbol:
either constructing the ticker raises, or the three accesses behave as the
given `TickerData` (closes of the 5-day history as a list, and
`trailingPE`/`priceToBook` as numbers when present with a numeric type). -/
inductive ProviderData where
  | throws
  | ok (t : TickerData)
deriving DecidableEq, Repr

/-- Python `a or b` on optional numbers: `a` when truthy (present and
nonzero), else `b` as-is.  Models `fi.get("last_price") or
fi.get("last_close")`. -/
def pyOrQ (a b : Option ℚ) : Option ℚ :=
  if truthyQ a then a else b

/-- A row of the live watchlist table, all fields rendered as strings with
the literal `N/A` marking an unavailable value. -/
structure StockRow where
  symbol : String
  currentPrice : String
  change : String
  percentChange : String
  peRatio : String
  pbRatio : String
deriving DecidableEq, Repr

/-- The formatting tail of `fetch_stock_row`, shared by the fast-info and
history paths: the current price is rendered when present; change and
percent change only when the price is present and the previous close is
truthy (present and nonzero); the two ratios are rendered when `info`
was obtained and the field is numeric. -/
def formatRow (symbol : String) (price prev_close : Option ℚ)
    (info : Except Unit (Option ℚ × Option ℚ)) : StockRow :=
  let currentPrice := match price with
    | some p => fmt2 p
    | none => "N/A"
  let (change, percentChange) :=
    match price with
    | some p =>
      if truthyQ prev_close then
        let pc := prev_close.getD 0
        let ch := p - pc
        let pct := ch / pc * 100
        (fmt2sign ch, fmt2sign pct ++ "%")
      else ("N/A", "N/A")
    | none => ("N/A", "N/A")
  let (peS, pbS) := match info with
    | .error _ => ("N/A", "N/A")
    | .ok (pe, pb) =>
      ((match pe with | some x => fmt2 x | none => "N/A"),
       (match pb with | some x => fmt2 x | none => "N/A"))
  ⟨symbol, currentPrice, change, percentChange, peS, pbS⟩

/-- Embedding of `fetch_stock_row` from app_graph.py.  The row starts with
every data field `N/A`; a raising ticker constructor returns it untouched.
Otherwise the fast-info read (its failures caught locally) proposes a price
and previous close; if either is missing, the 5-day history is pulled — a
raise there escapes to the outer handler, returning the untouched row — and
a nonempty history overwrites the price with its last close and, when it has
at least two points, the previous close with the second-to-last. -/
def fetch_stock_row (pd : ProviderData) (symbol : String) : StockRow :=
  let base : StockRow := ⟨symbol, "N/A", "N/A", "N/A", "N/A", "N/A"⟩
  match pd with
  | .throws => base
  | .ok t =>
    let (price, prev_close) : Option ℚ × Option ℚ :=
      match t.fastInfo with
      | .error _ => (none, none)
      | .ok none => (none, none)
      | .ok (some (lp, lc, pc)) => (pyOrQ lp lc, pc)
    if price = none ∨ prev_close = none then
      match t.hist5d with
      | .error _ => base
      | .ok closes =>
        if closes.isEmpty then
          formatRow symbol price prev_close t.info
        else
          let price2 := some ((closes.getLast?).getD 0)
          let prev2 :=
            if 1 < closes.length then some ((closes[closes.length - 2]?).getD 0)
            else prev_close
          formatRow symbol price2 prev2 t.info
    else
      formatRow symbol price prev_close t.info

/-- Embedding of the watchlist table build of app_graph.py:
`rows = [fetch_stock_row(sym) for sym in st.session_state.watchlist]`,
with the provider behaviour per symbol supplied by `p`. -/
def buildRows (p : String → ProviderData) (wl : List String) : List StockRow :=
  wl.map (fun sym => fetch_stock_row (p sym) sym)

/-! ## Analysis pipeline (graph_agent.py) -/

/-- A request to the narrative-generation collaborator.  The Python code
sends a formatted prompt string per call site; the exact wording is opaque
to every property proved here, so each call site is one constructor carrying
the data interpolated into its prompt. -/
inductive Prompt where
  | resolveSymbol (query : String)
  | valuationCommentary (symbol : String) (pe pb roe : Option ℚ)
  | analysisOutlook (symbol : String) (latest : Option (Option ℚ))
deriving DecidableEq, Repr

/-- The external collaborators of the pipeline: the narrative generator
(`llm.invoke`, returning the response content), the outcome per symbol of
the whole fetcher try-block (`ticker.history` for one year plus chart
generation; `error e` models a raise with message `e`, `ok closes` the
fetched close prices), and the outcome per symbol of `ticker.info` in the
valuation node (`trailingPE`, `priceToBook`, `returnOnEquity`). -/
structure Oracle where
  llm : Prompt → String
  fetchHist : String → Except String (List ℚ)
  valInfo : String → Except Unit (Option ℚ × Option ℚ × Option ℚ)

/-- The `StockState` TypedDict of graph_agent.py with `total=False`: every
key may be absent (outer `Option` = key present), and the keys that Python
can hold as `None` carry an inner `Option`. -/
structure StockState where
  query : Option String := none
  symbol : Option String := none
  data : Option (Option (List ℚ)) := none
  latest_price : Option (Option ℚ) := none
  valuation : Option String := none
  analysis : Option String := none
  chart : Option (Option String) := none
deriving DecidableEq, Repr

/-- Round to two decimals, as Python `round(x, 2)` on the latest close. -/
def round2 (x : ℚ) : ℚ := mkRat (qround (x * 100)) 100

/-- Embedding of `auto_symbol_node`: an empty (falsy) query short-circuits to
an empty symbol without calling the collaborator; otherwise the response is
stripped and uppercased.  Each node returns the merged state plus the list
of collaborator requests it issued. -/
def auto_symbol_node (o : Oracle) (s : StockState) : StockState × List Prompt :=
  let query := s.query.getD ""
  if query = "" then ({ s with symbol := some "" }, [])
  else
    let p := Prompt.resolveSymbol query
    ({ s with symbol := some (pyUpper (pyStrip (o.llm p))) }, [p])

/-- Embedding of `fetcher_node`: a falsy symbol yields `None` data, price and
chart; a raise anywhere in the try-block yields the same plus an
`Error fetching data:` analysis text; otherwise the history is stored (even
when empty), and a nonempty history also yields the rounded last close and
the deterministic chart path `SYMBOL_chart.png`. -/
def fetcher_node (o : Oracle) (s : StockState) : StockState × List Prompt :=
  let symbol := s.symbol.getD ""
  if symbol = "" then
    ({ s with data := some none, latest_price := some none, chart := some none }, [])
  else
    match o.fetchHist symbol with
    | .error e =>
      ({ s with data := some none, latest_price := some none, chart := some none,
                analysis := some ("Error fetching data: " ++ e) }, [])
    | .ok closes =>
      if closes.isEmpty then
        ({ s with data := some (some closes), latest_price := some none,
                  chart := some none }, [])
      else
        ({ s with data := some (some closes),
                  latest_price := some (some (round2 ((closes.getLast?).getD 0))),
                  chart := some (some (symbol ++ "_chart.png")) }, [])

/-- Embedding of `valuation_node`: a falsy symbol yields the fixed
`No symbol available for valuation.` text; a raise while obtaining the
fundamentals (or generating the commentary) yields the fixed
`Valuation data unavailable.` text, with no collaborator request issued in
either case; otherwise the collaborator is asked for a commentary on the
three optional ratios. -/
def valuation_node (o : Oracle) (s : StockState) : StockState × List Prompt :=
  let symbol := s.symbol.getD ""
  if symbol = "" then
    ({ s with valuation := some "No symbol available for valuation." }, [])
  else
    match o.valInfo symbol with
    | .error _ =>
      ({ s with valuation := some "Valuation data unavailable." }, [])
    | .ok (pe, pb, roe) =>
      let p := Prompt.valuationCommentary symbol pe pb roe
      ({ s with valuation := some (o.llm p) }, [p])

/-- Embedding of `analysis_node`: a falsy symbol or `None` data yields the
fixed `No data available for analysis.` text without calling the
collaborator; otherwise the collaborator is asked for an outlook, quoting
the latest price as stored in the state (`N/A` when the key is absent). -/
def analysis_node (o : Oracle) (s : StockState) : StockState × List Prompt :=
  let symbol := s.symbol.getD ""
  let data := s.data.getD none
  if symbol = "" ∨ data = none then
    ({ s with analysis := some "No data available for analysis." }, [])
  else
    let p := Prompt.analysisOutlook symbol s.latest_price
    ({ s with analysis := some (o.llm p) }, [p])

/-- Embedding of `crew.invoke` on the compiled graph of graph_agent.py: the
four nodes run strictly in sequence, each merging its partial update into
the state; the collaborator requests of all stages are concatenated in
order. -/
def crew_invoke (o : Oracle) (query : String) : StockState × List Prompt :=
  let s0 : StockState := { query := some query }
  let (s1, p1) := auto_symbol_node o s0
  let (s2, p2) := fetcher_node o s1
  let (s3, p3) := valuation_node o s2
  let (s4, p4) := analysis_node o s3
  (s4, p1 ++ p2 ++ p3 ++ p4)

/-- The fixed explanatory fallback texts that graph_agent.py stores into the
valuation and analysis slots instead of collaborator output. -/
def explanatoryTexts : List String :=
  ["No symbol available for valuation.", "Valuation data unavailable.",
   "No data available for analysis."]

/-- A string counts as an explanatory placeholder of the pipeline when it is
one of the fixed fallback texts or an `Error fetching data:` message. -/
def isPlaceholderText (s : String) : Bool :=
  s ∈ explanatoryTexts || "Error fetching data: ".isPrefixOf s

/-! ## Concrete fixtures used by witnesses and counterexamples -/

/-- A provider behaviour for the live table: the symbol `B` raises on
ticker construction, every other symbol serves a fast-info price of 100
with previous close 90 and the ratios 10 and 2. -/
def providerBThrows : String → ProviderData := fun s =>
  if s = "B" then .throws
  else .ok ⟨.ok (some (some 100, none, some 90)), .ok [], .ok (some 10, some 2)⟩

/-- Pipeline oracle whose collaborator and provider always succeed; used to
exercise the empty-query short-circuit. -/
def oracleIdle : Oracle where
  llm := fun _ => "TEXT"
  fetchHist := fun _ => .ok []
  valInfo := fun _ => .ok (none, none, none)

/-- Pipeline oracle whose fetch stage raises while the valuation stage's own
fundamentals fetch succeeds; the collaborator answers `BUY` to everything. -/
def oracleFetchFail : Oracle where
  llm := fun _ => "BUY"
  fetchHist := fun _ => .error "boom"
  valInfo := fun _ => .ok (some 10, some 1, none)

/-- Pipeline oracle whose fetch stage and valuation-stage fundamentals fetch
both raise. -/
def oracleAllFail : Oracle where
  llm := fun _ => "BUY"
  fetchHist := fun _ => .error "boom"
  valInfo := fun _ => .error ()

/-! ## Claims about the valuation classifier -/

/-- C1 (counterexample).  The claim quantifies over every pair of present
ratios, but the code's truthiness test conflates a present zero with
absence: at `pe = 0, pb = 1` both ratios are present and below the
Undervalued thresholds, yet `get_valuation` answers `Data not available`
rather than `Undervalued`. -/
theorem get_valuation_zero_ratio_cex :
    (0:ℚ) < 15 ∧ (1:ℚ) < mkRat 3 2 ∧
    get_valuation (some 0) (some 1) = "Data not available" ∧
    get_valuation (some 0) (some 1) ≠ "Undervalued" := by
  decide

/-- C1 (amended).  For every pair of present and nonzero ratios, the
classifier answers `Undervalued` exactly when `pe < 15` and `pb < 1.5`,
otherwise `Fairly valued` exactly when `pe < 25` and `pb < 3`, and
`Overvalued` otherwise; the comparisons are strict, so `pe = 15, pb = 1`
is classified `Fairly valued`, not `Undervalued`. -/
theorem get_valuation_present_nonzero_thresholds (pe pb : ℚ)
    (hpe : pe ≠ 0) (hpb : pb ≠ 0) :
    (get_valuation (some pe) (some pb) = "Undervalued" ↔
      pe < 15 ∧ pb < mkRat 3 2) ∧
    (get_valuation (some pe) (some pb) = "Fairly valued" ↔
      ¬(pe < 15 ∧ pb < mkRat 3 2) ∧ pe < 25 ∧ pb < 3) ∧
    (get_valuation (some pe) (some pb) = "Overvalued" ↔
      ¬(pe < 15 ∧ pb < mkRat 3 2) ∧ ¬(pe < 25 ∧ pb < 3)) ∧
    get_valuation (some 15) (some 1) = "Fairly valued" := by
  have h1 : truthyQ (some pe) = true := by simp [truthyQ, hpe]
  have h2 : truthyQ (some pb) = true := by simp [truthyQ, hpb]
  refine ⟨?_, ?_, ?_, by decide⟩ <;>
    simp only [get_valuation, h1, h2, Bool.not_true, Bool.or_self,
      Bool.false_eq_true, if_false, Option.getD_some] <;>
    split_ifs with hu hf <;> simp_all

/-- C1 (witness for the amended theorem): at `pe = 10, pb = 1` the
hypotheses hold and the classifier answers `Undervalued`. -/
theorem get_valuation_present_nonzero_thresholds_witness :
    get_valuation (some 10) (some 1) = "Undervalued" :=
  ((get_valuation_present_nonzero_thresholds 10 1 (by decide)
    (by decide)).1).mpr (by decide)

/-- C10.  Whenever the provider returns a present but zero ratio on either
side, `get_valuation` answers the `Data not available` verdict: the
truthiness test `if not pe or not pb` conflates numeric zero with absence,
so a zero ratio never reaches the threshold comparisons. -/
theorem get_valuation_zero_is_unavailable (pe pb : Option ℚ)
    (h : pe = some 0 ∨ pb = some 0) :
    get_valuation pe pb = "Data not available" := by
  rcases h with h | h <;> subst h <;> simp [get_valuation, truthyQ]

/-- C10 (witness): at `pe = 0, pb = 7`, both present, the verdict is
`Data not available`. -/
theorem get_valuation_zero_is_unavailable_witness :
    get_valuation (some 0) (some 7) = "Data not available" :=
  get_valuation_zero_is_unavailable (some 0) (some 7) (Or.inl rfl)

/-! ## Claims about the watchlist store -/

/-- C2 (counterexample).  The duplicate check of the add handler is the
exact membership test `sym not in watchlist`, not a case-insensitive one:
with the entry `aapl` already stored (as `load_watchlist` returns file
contents verbatim), adding the unique search match `AAPL` appends a second
entry that differs only by case. -/
theorem searchAdd_case_sensitive_cex :
    (searchAddHandler "apple" [⟨"AAPL", "Apple Inc.", none⟩]
      ["aapl"] true).watchlist = ["aapl", "AAPL"] ∧
    pyUpper "aapl" = pyUpper "AAPL" := by
  decide

/-- C2 (amended).  An empty or whitespace-only input is rejected with no
mutation and no save; the duplicate check against existing entries is an
exact (case-sensitive) string membership test, so only an entry equal as a
string is rejected as a duplicate; a successful add appends the match's
symbol at the end, and the watchlist is persisted immediately after the
mutation with the post-append list.  The confirm handler of the
multiple-match flow behaves the same way on the selected symbol. -/
theorem searchAdd_add_behaviour (input : String) (m : SymbolMatch)
    (wl : List String) (sym : String) (io : Bool) :
    (∀ ms, pyStrip input = "" →
      searchAddHandler input ms wl io = ⟨wl, none⟩) ∧
    (pyStrip input ≠ "" → m.symbol ∈ wl →
      searchAddHandler input [m] wl io = ⟨wl, none⟩) ∧
    (pyStrip input ≠ "" → m.symbol ∉ wl →
      searchAddHandler input [m] wl io =
        ⟨wl ++ [m.symbol], some (wl ++ [m.symbol], save_watchlist io)⟩) ∧
    (sym ∈ wl → confirmAddHandler sym wl io = ⟨wl, none⟩) ∧
    (sym ∉ wl → confirmAddHandler sym wl io =
        ⟨wl ++ [sym], some (wl ++ [sym], save_watchlist io)⟩) := by
  refine ⟨?_, ?_, ?_, ?_, ?_⟩ <;>
    intros <;> simp_all [searchAddHandler, confirmAddHandler]

/-- C2 (witness for the amended theorem): a whitespace input leaves the list
untouched; adding the exact duplicate `AAPL` is rejected; adding the fresh
symbol `MSFT` appends it at the end and persists the appended list. -/
theorem searchAdd_add_behaviour_witness :
    searchAddHandler " " [⟨"AAPL", "Apple Inc.", none⟩] ["AAPL"] true
      = ⟨["AAPL"], none⟩ ∧
    searchAddHandler "apple" [⟨"AAPL", "Apple Inc.", none⟩] ["AAPL"] true
      = ⟨["AAPL"], none⟩ ∧
    searchAddHandler "msft" [⟨"MSFT", "Microsoft", none⟩] ["AAPL"] true
      = ⟨["AAPL", "MSFT"], some (["AAPL", "MSFT"], .ok)⟩ := by
  refine ⟨(searchAdd_add_behaviour " " ⟨"AAPL", "Apple Inc.", none⟩
      ["AAPL"] "X" true).1 _ (by decide),
    (searchAdd_add_behaviour "apple" ⟨"AAPL", "Apple Inc.", none⟩
      ["AAPL"] "X" true).2.1 (by decide) (by decide),
    ?_⟩
  have h := (searchAdd_add_behaviour "msft" ⟨"MSFT", "Microsoft", none⟩
      ["AAPL"] "X" true).2.2.1 (by decide) (by decide)
  simpa [save_watchlist] using h

/-- C7.  Whatever the state of durable storage, `load_watchlist` returns a
list and never fails the caller: a missing file, an unreadable or corrupt
file, and a file parsing to a non-list value all yield the empty watchlist;
only a file parsing to a JSON list yields that list. -/
theorem load_watchlist_total_spec (fs : FileState) :
    load_watchlist .missing = [] ∧
    load_watchlist .unreadable = [] ∧
    (∀ xs, load_watchlist (.parsed (.arr xs)) = xs) ∧
    ((∀ xs, fs ≠ .parsed (.arr xs)) → load_watchlist fs = []) := by
  refine ⟨rfl, rfl, fun xs => rfl, fun h => ?_⟩
  cases fs with
  | missing => rfl
  | unreadable => rfl
  | parsed j =>
    cases j with
    | arr xs => exact absurd rfl (h xs)
    | str s => rfl
    | num n => rfl
    | bool b => rfl
    | null => rfl
    | obj kvs => rfl

/-- C7 (witness): a file containing the non-array document `{"a": 1}` loads
as the empty watchlist. -/
theorem load_watchlist_total_spec_witness :
    load_watchlist (.parsed (.obj [("a", .num 1)])) = [] :=
  (load_watchlist_total_spec (.parsed (.obj [("a", .num 1)]))).2.2.2
    (fun xs h => by injection h with hj; exact Json.noConfusion hj)

/-- C8.  A failing save is reported to the caller as a warning but the
in-memory watchlist keeps the mutation: for both add handlers, the
watchlist produced when the file write fails equals the one produced when
it succeeds, and on a successful add with a failing write the handler
still hands the post-append list to `save_watchlist`, which reports
`warned` instead of raising. -/
theorem save_failure_no_rollback (input : String) (ms : List SymbolMatch)
    (wl : List String) (sym : String) :
    (searchAddHandler input ms wl false).watchlist
      = (searchAddHandler input ms wl true).watchlist ∧
    (confirmAddHandler sym wl false).watchlist
      = (confirmAddHandler sym wl true).watchlist ∧
    (∀ m, ms = [m] → pyStrip input ≠ "" → m.symbol ∉ wl →
      (searchAddHandler input ms wl false).saveCall
        = some (wl ++ [m.symbol], .warned)) ∧
    (sym ∉ wl →
      (confirmAddHandler sym wl false).saveCall
        = some (wl ++ [sym], .warned)) := by
  refine ⟨?_, ?_, ?_, ?_⟩
  · unfold searchAddHandler
    split_ifs with h
    · rfl
    · cases ms with
      | nil => rfl
      | cons m rest =>
        cases rest with
        | nil => dsimp only; split_ifs <;> rfl
        | cons m2 rest2 => rfl
  · unfold confirmAddHandler
    split_ifs <;> rfl
  · rintro m rfl h hm
    simp [searchAddHandler, h, hm, save_watchlist]
  · intro hm
    simp [confirmAddHandler, hm, save_watchlist]

/-- C8 (witness): adding the fresh symbol `MSFT` with a failing write yields
the same in-memory list as with a successful write, and the failing run
passes the appended list to the save that reports a warning. -/
theorem save_failure_no_rollback_witness :
    (searchAddHandler "msft" [⟨"MSFT", "Microsoft", none⟩] ["AAPL"]
      false).watchlist
      = (searchAddHandler "msft" [⟨"MSFT", "Microsoft", none⟩] ["AAPL"]
      true).watchlist ∧
    (searchAddHandler "msft" [⟨"MSFT", "Microsoft", none⟩] ["AAPL"]
      false).saveCall = some (["AAPL", "MSFT"], .warned) :=
  ⟨(save_failure_no_rollback "msft" [⟨"MSFT", "Microsoft", none⟩]
      ["AAPL"] "X").1,
   (save_failure_no_rollback "msft" [⟨"MSFT", "Microsoft", none⟩]
      ["AAPL"] "X").2.2.1 ⟨"MSFT", "Microsoft", none⟩ rfl (by decide)
      (by decide)⟩

/-! ## Claims about the live table builder and symbol search -/

/-- C3.  For every watchlist, the table build returns exactly one row per
symbol, in watchlist order; each row depends only on that symbol's own
provider behaviour, so one symbol's failure cannot abort a sibling row; and
when the provider call for a symbol throws, that symbol's row carries the
symbol and the literal `N/A` in every data field. -/
theorem buildRows_per_symbol (p : String → ProviderData) (wl : List String) :
    (buildRows p wl).length = wl.length ∧
    (∀ (i : Nat) (sym : String), wl[i]? = some sym →
      (buildRows p wl)[i]? = some (fetch_stock_row (p sym) sym)) ∧
    (∀ sym, p sym = .throws →
      fetch_stock_row (p sym) sym
        = ⟨sym, "N/A", "N/A", "N/A", "N/A", "N/A"⟩) := by
  refine ⟨by simp [buildRows], fun i sym h => ?_, fun sym h => ?_⟩
  · simp [buildRows, List.getElem?_map, h]
  · rw [h]; rfl

section
attribute [local semireducible] Rat.mul Rat.add Rat.sub Rat.inv

/-- C3 (witness): on the watchlist `A, B, C` where the provider throws for
`B` only, the build yields three rows in order, row two is all `N/A` apart
from its symbol, and rows one and three are fully populated. -/
theorem buildRows_per_symbol_witness :
    (buildRows providerBThrows ["A", "B", "C"]).length = 3 ∧
    (buildRows providerBThrows ["A", "B", "C"])[1]?
      = some ⟨"B", "N/A", "N/A", "N/A", "N/A", "N/A"⟩ ∧
    (buildRows providerBThrows ["A", "B", "C"])[0]?
      = some ⟨"A", "100.00", "+10.00", "+11.11%", "10.00", "2.00"⟩ ∧
    (buildRows providerBThrows ["A", "B", "C"])[2]?
      = some ⟨"C", "100.00", "+10.00", "+11.11%", "10.00", "2.00"⟩ := by
  have h := buildRows_per_symbol providerBThrows ["A", "B", "C"]
  refine ⟨by simpa using h.1, ?_, by decide, by decide⟩
  rw [h.2.1 1 "B" rfl, h.2.2 "B" (by decide)]

end

/-- A truthy optional string unwraps to a nonempty string. -/
theorem truthyS_getD_ne (a : Option String) (h : truthyS a = true) :
    a.getD "" ≠ "" := by
  cases a with
  | none => simp [truthyS] at h
  | some s => simpa [truthyS] using h

/-- C9 (counterexample).  A provider failure is not distinguishable from
zero matches: `search_symbol` returns the same empty list when the provider
call raises as when the provider answers with no quotes, so the caller
reports `no matches` in both cases. -/
theorem search_symbol_failure_indistinct_cex :
    search_symbol (.error ()) = search_symbol (.ok []) ∧
    search_symbol (.error ()) = [] := by
  exact ⟨rfl, rfl⟩

/-- C9 (amended).  `search_symbol` returns only matches carrying both a
nonempty symbol and a nonempty display name, and may return zero, one, or
many such matches; however a provider failure yields the same empty result
as zero matches, so the caller's `no matches` report does not distinguish
the two. -/
theorem search_symbol_filter_spec (resp : Except Unit (List RawQuote)) :
    (∀ m ∈ search_symbol resp, m.symbol ≠ "" ∧ m.name ≠ "") ∧
    search_symbol (.error ()) = [] := by
  refine ⟨fun m hm => ?_, rfl⟩
  cases resp with
  | error e => simp [search_symbol] at hm
  | ok qs =>
    simp only [search_symbol, List.mem_filterMap] at hm
    obtain ⟨q, _, hqm⟩ := hm
    rw [quoteToMatch] at hqm
    by_cases h : (truthyS q.symbol && truthyS (pyOr q.shortname q.longname)) = true
    · rw [if_pos h] at hqm
      obtain ⟨h1, h2⟩ := (Bool.and_eq_true _ _).mp h
      injection hqm with hq2
      rw [← hq2]
      exact ⟨truthyS_getD_ne _ h1, truthyS_getD_ne _ h2⟩
    · rw [if_neg h] at hqm
      exact absurd hqm (by simp)

/-- C9 (witness for the amended theorem): a response with one complete quote
produces the single match `AAPL / Apple Inc.`, whose symbol and name are
nonempty. -/
theorem search_symbol_filter_spec_witness :
    (⟨"AAPL", "Apple Inc.", some "NMS"⟩ : SymbolMatch).symbol ≠ "" ∧
    (⟨"AAPL", "Apple Inc.", some "NMS"⟩ : SymbolMatch).name ≠ "" :=
  (search_symbol_filter_spec
    (.ok [⟨some "AAPL", some "Apple Inc.", none, some "NMS", none⟩])).1
    ⟨"AAPL", "Apple Inc.", some "NMS"⟩ (by decide)

/-! ## Claims about the analysis pipeline -/

/-- C5.  When the valuation stage's attempt to obtain fundamentals for the
resolved symbol raises, the stage stores the fixed
`Valuation data unavailable.` text and issues no request to the
narrative-generation collaborator. -/
theorem valuation_node_unavailable_no_llm (o : Oracle) (s : StockState)
    (sym : String) (hs : s.symbol = some sym) (hne : sym ≠ "")
    (hv : o.valInfo sym = .error ()) :
    valuation_node o s =
      ({ s with valuation := some "Valuation data unavailable." }, []) := by
  simp [valuation_node, hs, hne, hv]

/-- C5 (witness): with the symbol `AAPL` resolved and a raising fundamentals
fetch, the stage returns the fixed text and an empty request list. -/
theorem valuation_node_unavailable_no_llm_witness :
    valuation_node oracleAllFail { symbol := some "AAPL" } =
      ({ symbol := some "AAPL",
         valuation := some "Valuation data unavailable." }, []) :=
  valuation_node_unavailable_no_llm oracleAllFail { symbol := some "AAPL" }
    "AAPL" rfl (by decide) rfl

/-- C6 (counterexample).  On the empty query the pipeline does short-circuit
with an empty resolved symbol, absent price data and no collaborator call,
but the valuation and analysis fields are not empty or absent: they hold
the fixed placeholder texts. -/
theorem pipeline_empty_query_placeholder_cex :
    (crew_invoke oracleIdle "").1.symbol = some "" ∧
    (crew_invoke oracleIdle "").2 = [] ∧
    (crew_invoke oracleIdle "").1.valuation
      = some "No symbol available for valuation." ∧
    (crew_invoke oracleIdle "").1.valuation ≠ none ∧
    (crew_invoke oracleIdle "").1.valuation ≠ some "" ∧
    (crew_invoke oracleIdle "").1.analysis
      = some "No data available for analysis." := by
  decide

/-- C6 (amended).  For the empty query and every oracle, the pipeline
short-circuits: the resolved symbol is the empty string; the price history,
latest price and chart are the Python `None`; the valuation and analysis
slots hold the fixed placeholder texts `No symbol available for valuation.`
and `No data available for analysis.`; and no collaborator request is
issued in any stage.  This is a normal result, not an error. -/
theorem pipeline_empty_query_short_circuit (o : Oracle) :
    crew_invoke o "" =
      ({ query := some "", symbol := some "", data := some none,
         latest_price := some none, chart := some none,
         valuation := some "No symbol available for valuation.",
         analysis := some "No data available for analysis." }, []) := by
  rfl

/-- C4 (counterexample).  A query whose Fetch stage raises does not always
leave placeholder text in the valuation slot: the valuation stage performs
its own fundamentals fetch, and when that separate call succeeds the slot
holds the collaborator's narrative (here `BUY`), which is none of the
pipeline's explanatory placeholder texts. -/
theorem pipeline_fetch_error_narrative_cex :
    oracleFetchFail.fetchHist "BUY" = .error "boom" ∧
    (crew_invoke oracleFetchFail "apple").1.symbol = some "BUY" ∧
    (crew_invoke oracleFetchFail "apple").1.valuation = some "BUY" ∧
    isPlaceholderText "BUY" = false := by
  decide

/-- C4 (amended).  For every query whose Fetch stage raises an exception,
the pipeline does not crash: the final result still contains the resolved
symbol produced by stage 1, the analysis slot is filled with the
explanatory placeholder `No data available for analysis.`, and the
valuation slot holds the fixed `Valuation data unavailable.` placeholder
when the valuation stage's own fundamentals fetch also fails, and the
collaborator's narrative otherwise.  The fetch fault never discards the
result of stage 1. -/
theorem pipeline_fetch_error_partial_result (o : Oracle)
    (query sym e : String) (hq : query ≠ "")
    (hsym : sym = pyUpper (pyStrip (o.llm (.resolveSymbol query))))
    (hne : sym ≠ "") (hfetch : o.fetchHist sym = .error e) :
    (crew_invoke o query).1.symbol = some sym ∧
    (crew_invoke o query).1.analysis
      = some "No data available for analysis." ∧
    (crew_invoke o query).1.valuation =
      some (match o.valInfo sym with
        | .error _ => "Valuation data unavailable."
        | .ok (pe, pb, roe) =>
          o.llm (.valuationCommentary sym pe pb roe)) := by
  subst hsym
  cases hvi : o.valInfo (pyUpper (pyStrip (o.llm (.resolveSymbol query)))) with
  | error u =>
    simp [crew_invoke, auto_symbol_node, fetcher_node, valuation_node,
      analysis_node, hq, hne, hfetch, hvi]
  | ok v =>
    obtain ⟨pe, pb, roe⟩ := v
    simp [crew_invoke, auto_symbol_node, fetcher_node, valuation_node,
      analysis_node, hq, hne, hfetch, hvi]

/-- C4 (witness for the amended theorem): with the collaborator answering
`BUY`, the fetch raising `boom` for the resolved symbol `BUY`, and the
valuation stage's own fetch raising too, the result keeps the resolved
symbol and both slots hold the explanatory placeholders. -/
theorem pipeline_fetch_error_partial_result_witness :
    (crew_invoke oracleAllFail "apple").1.symbol = some "BUY" ∧
    (crew_invoke oracleAllFail "apple").1.analysis
      = some "No data available for analysis." ∧
    (crew_invoke oracleAllFail "apple").1.valuation
      = some "Valuation data unavailable." := by
  have h := pipeline_fetch_error_partial_result oracleAllFail "apple" "BUY"
    "boom" (by decide) (by decide) (by decide) rfl
  exact ⟨h.1, h.2.1, h.2.2.trans rfl⟩

/-- C6 (closed instance of the amended theorem at a concrete oracle). -/
theorem pipeline_empty_query_short_circuit_witness :
    crew_invoke oracleIdle "" =
      ({ query := some "", symbol := some "", data := some none,
         latest_price := some none, chart := some none,
         valuation := some "No symbol available for valuation.",
         analysis := some "No data available for analysis." }, []) :=
  pipeline_empty_query_short_circuit oracleIdle
